import Mathlib

/-!
Shallow embedding of the IncidentWorkbench supervisor layer
(`src-tauri/src/main.rs`, `src-tauri/src/lib.rs`).

The program holds two mutex-guarded cells, `BackendPort(Mutex<Option<u16>>)`
and `SidecarProcess(Mutex<Option<CommandChild>>)`.  We model the pair of
cells as `AppState` with `Option Nat` fields (a `CommandChild` handle is
identified by a natural number; a `u16` port is a natural number below
2^16).  A mutex `lock()` call either succeeds or fails with a poison-error
string; we pass each lock outcome explicitly: as `Except String Unit`
where the code propagates the error (`get_backend_port`), and as a `Bool`
where the code uses `if let Ok(...)` and silently skips on failure
(`setup`, `on_window_event`).

The filesystem is modelled as `String → Bool` (which paths exist);
`fs::remove_file` may be denied by the OS, so its outcome is an explicit
`Except String Unit` oracle consulted only when the call is made.
-/

namespace IncidentWorkbench

/-- The two shared cells: `BackendPort(Mutex<Option<u16>>)` and
`SidecarProcess(Mutex<Option<CommandChild>>)`. -/
structure AppState where
  backendPort : Option Nat
  sidecarProcess : Option Nat
  deriving Repr, DecidableEq

/-- `main` manages `BackendPort(Mutex::new(None))` and
`SidecarProcess(Mutex::new(None))`. -/
def initialState : AppState := ⟨none, none⟩

/-- Embeds `get_backend_port` (lib.rs lines 10-14 / main.rs lines 9-15):
`state.0.lock().map_err(|e| format!("Failed to lock backend port: {e}"))?
  .ok_or_else(|| "Backend port not yet set".to_string())`. -/
def get_backend_port (lockRes : Except String Unit) (st : AppState) :
    Except String Nat :=
  match lockRes with
  | .error e => .error ("Failed to lock backend port: " ++ e)
  | .ok _ =>
    match st.backendPort with
    | some p => .ok p
    | none => .error "Backend port not yet set"

/-- Embeds the guarded write `if let Ok(mut port) = backend_port.0.lock()
\x7b *port = Some(v); \x7d` (main.rs lines 56-58 and 69-71): on lock failure
the write is silently skipped. -/
def writePort (lockOk : Bool) (v : Nat) (st : AppState) : AppState :=
  if lockOk then { st with backendPort := some v } else st

/-- Embeds the guarded write `if let Ok(mut proc) = sidecar_process.0.lock()
\x7b *proc = Some(child); \x7d` (main.rs lines 61-63). -/
def writeProc (lockOk : Bool) (child : Nat) (st : AppState) : AppState :=
  if lockOk then { st with sidecarProcess := some child } else st

/-- Outcome of `sidecar_command.spawn()` (main.rs line 48).  On success the
worker hands back a receiver `_rx` for its output and a `child` handle; the
worker's contract is to print its bound port as the first line of stdout,
so the success case carries both the handle id and that reported port.
The code ignores the reported port. -/
inductive SpawnResult where
  | ok (child : Nat) (reportedPort : Nat)
  | err (e : String)
  deriving Repr, DecidableEq

/-- The hardcoded port written in both branches of setup
(`*port = Some(8765)`, main.rs lines 57 and 70). -/
def fixedPort : Nat := 8765

/-- Embeds the `.setup(|app| ...)` closure (main.rs lines 39-76).
`app.shell().sidecar("incident-workbench-api")?` propagates failure with
`?` (aborting setup); otherwise `sidecar_command.spawn()` is matched:
on `Ok((_rx, child))` the port cell is set to 8765 and the child stored,
on `Err(e)` only the port cell is set to 8765 (fallback); both branches
end in `Ok(())`. -/
def setup (sidecarCmd : Except String Unit) (spawn : SpawnResult)
    (portLockOk procLockOk : Bool) (st : AppState) :
    Except String AppState :=
  match sidecarCmd with
  | .error e => .error e
  | .ok _ =>
    match spawn with
    | .ok child _reportedPort =>
        .ok (writeProc procLockOk child (writePort portLockOk fixedPort st))
    | .err _ =>
        .ok (writePort portLockOk fixedPort st)

/-- Embeds the `WindowEvent::Destroyed` arm of `on_window_event`
(main.rs lines 77-88): `window.try_state::<SidecarProcess>()` may be
absent (`tryStateOk`), the lock attempt may fail (`lockOk`); when both
succeed, `proc.take()` empties the slot and `child.kill()` is issued on
the removed handle (its result discarded).  Returns the new state and the
list of handles that were sent a kill. -/
def on_window_destroyed (tryStateOk lockOk : Bool) (st : AppState) :
    AppState × List Nat :=
  if tryStateOk && lockOk then
    match st.sidecarProcess with
    | some child => ({ st with sidecarProcess := none }, [child])
    | none => (st, [])
  else (st, [])

/-- The vault file name (main.rs line 23): `app_dir.join("credentials.stronghold")`. -/
def vaultFileName : String := "credentials.stronghold"

/-- `PathBuf::join` of a directory and a file name. -/
def joinPath (dir file : String) : String := dir ++ "/" ++ file

/-- Embeds `reset_credentials_vault` (main.rs lines 18-31):
resolve `app.path().app_data_dir()` (propagating its failure with the
message `Failed to locate app data directory: {e}`), join the vault file
name, and if that path exists call `fs::remove_file` (propagating its
failure with `Failed to delete credentials vault: {e}`); a non-existent
path is a successful no-op.  Returns the command result and the
filesystem after the call. -/
def reset_credentials_vault (appDataDir : Except String String)
    (removeRes : Except String Unit) (fs : String → Bool) :
    Except String Unit × (String → Bool) :=
  match appDataDir with
  | .error e => (.error ("Failed to locate app data directory: " ++ e), fs)
  | .ok dir =>
    let snapshot_path := joinPath dir vaultFileName
    if fs snapshot_path then
      match removeRes with
      | .ok _ => (.ok (), fun p => if p = snapshot_path then false else fs p)
      | .error e =>
          (.error ("Failed to delete credentials vault: " ++ e), fs)
    else (.ok (), fs)

/-- The vault path `reset_credentials_vault` resolves, if path resolution
succeeds. -/
def resolvedVaultPath : Except String String → Option String
  | .ok dir => some (joinPath dir vaultFileName)
  | .error _ => none

/-- Whether an `Except` carries an error. -/
def isErr {α : Type} : Except String α → Bool
  | .error _ => true
  | .ok _ => false

/-- The whole observable world after setup: the two cells, the
filesystem, and the log of kill requests issued so far. -/
structure World where
  app : AppState
  fs : String → Bool
  kills : List Nat

/-- The events that can reach the shared state after setup: a
`get_backend_port` invocation, a `reset_credentials_vault` invocation,
or a window-destroyed shutdown signal, each with the outcomes of its
external interactions. -/
inductive Event where
  | getPort (lockRes : Except String Unit)
  | resetVault (appDataDir : Except String String)
      (removeRes : Except String Unit)
  | destroyed (tryStateOk lockOk : Bool)

/-- Whether an event is the window-destroyed shutdown signal. -/
def Event.isDestroy : Event → Bool
  | .destroyed _ _ => true
  | _ => false

/-- Effect of one event on the world.  `get_backend_port` only reads;
`reset_credentials_vault` touches only the filesystem;
the destroyed handler touches only the process slot and the kill log. -/
def step (w : World) (ev : Event) : World :=
  match ev with
  | .getPort _ => w
  | .resetVault appDataDir removeRes =>
      { w with fs := (reset_credentials_vault appDataDir removeRes w.fs).2 }
  | .destroyed tryStateOk lockOk =>
      { w with
        app := (on_window_destroyed tryStateOk lockOk w.app).1,
        kills := w.kills ++ (on_window_destroyed tryStateOk lockOk w.app).2 }

/-- Run a sequence of events. -/
def run (w : World) : List Event → World
  | [] => w
  | ev :: evs => run (step w ev) evs

/-- Concrete filesystem holding exactly the vault file under `appdata`. -/
def fs0 : String → Bool := fun p => p == joinPath "appdata" vaultFileName

/-- Concrete empty filesystem. -/
def fsEmpty : String → Bool := fun _ => false

theorem writeProc_backendPort (lockOk : Bool) (child : Nat) (st : AppState) :
    (writeProc lockOk child st).backendPort = st.backendPort := by
  cases lockOk <;> rfl

theorem on_window_destroyed_backendPort (a b : Bool) (st : AppState) :
    ((on_window_destroyed a b st).1).backendPort = st.backendPort := by
  cases a <;> cases b <;> cases h : st.sidecarProcess <;>
    simp [on_window_destroyed, h]

theorem step_backendPort (w : World) (ev : Event) :
    (step w ev).app.backendPort = w.app.backendPort := by
  cases ev with
  | getPort _ => rfl
  | resetVault _ _ => rfl
  | destroyed a b => simpa [step] using on_window_destroyed_backendPort a b w.app

theorem run_backendPort (evs : List Event) (w : World) :
    (run w evs).app.backendPort = w.app.backendPort := by
  induction evs generalizing w with
  | nil => rfl
  | cons e evs ih => rw [run, ih, step_backendPort]

theorem step_app_of_not_destroy (w : World) (ev : Event)
    (h : ev.isDestroy = false) : (step w ev).app = w.app := by
  cases ev <;> simp_all [step, Event.isDestroy]

theorem run_app_of_no_destroy (evs : List Event) (w : World)
    (h : ∀ e ∈ evs, e.isDestroy = false) : (run w evs).app = w.app := by
  induction evs generalizing w with
  | nil => rfl
  | cons e evs ih =>
      rw [run, ih _ (fun x hx => h x (List.mem_cons_of_mem _ hx)),
        step_app_of_not_destroy w e (h e (List.mem_cons_self _ _))]

/-- C3: for every execution in which the port cell is still unset, a
`get_backend_port` call fails (never returns a port value), and whenever
the lock is acquired the error is exactly "Backend port not yet set". -/
theorem get_backend_port_unset (lockRes : Except String Unit)
    (st : AppState) (h : st.backendPort = none) :
    isErr (get_backend_port lockRes st) = true ∧
      (∀ u, lockRes = .ok u →
        get_backend_port lockRes st = .error "Backend port not yet set") := by
  cases lockRes <;> simp [get_backend_port, isErr, h]

/-- Witness for C3 at the initial (unset) state. -/
theorem get_backend_port_unset_witness :
    initialState.backendPort = none ∧
      get_backend_port (.ok ()) initialState =
        .error "Backend port not yet set" :=
  ⟨rfl, (get_backend_port_unset (.ok ()) initialState rfl).2 () rfl⟩

/-- C4: for every u16 port value p, after the guarded write of p into the
port cell, `get_backend_port` returns exactly p; a read leaves the whole
world (cell included) unchanged, so a repeated read returns p again. -/
theorem get_after_set (p : Nat) (hp : p < 65536) (st : AppState)
    (fs : String → Bool) (ks : List Nat) :
    get_backend_port (.ok ()) (writePort true p st) = .ok p ∧
      step ⟨writePort true p st, fs, ks⟩ (.getPort (.ok ())) =
        ⟨writePort true p st, fs, ks⟩ ∧
      get_backend_port (.ok ())
        (step ⟨writePort true p st, fs, ks⟩ (.getPort (.ok ()))).app =
        .ok p := by
  refine ⟨?_, rfl, ?_⟩ <;> simp [get_backend_port, writePort, step]

/-- Witness for C4 at p = 8765. -/
theorem get_after_set_witness :
    8765 < 65536 ∧
      get_backend_port (.ok ()) (writePort true 8765 initialState) =
        .ok 8765 :=
  ⟨by decide, (get_after_set 8765 (by decide) initialState fsEmpty []).1⟩

/-- C5: if spawn of the worker fails, setup still returns successfully
(startup continues), the port cell is populated with the same fixed
fallback value 8765 as the success path, and the process-handle slot
remains empty. -/
theorem setup_spawn_failure (e : String) (procLockOk : Bool) :
    setup (.ok ()) (.err e) true procLockOk initialState =
      .ok { backendPort := some 8765, sidecarProcess := none } := rfl

/-- C2 (divergence record): on a successful spawn in which the worker
reports bound port 9999 as the first line of its stdout, setup publishes
the hardcoded port 8765 to the port cell, not the reported 9999. -/
theorem setup_ignores_reported_port :
    setup (.ok ()) (.ok 1 9999) true true initialState =
        .ok { backendPort := some fixedPort, sidecarProcess := some 1 } ∧
      fixedPort = 8765 ∧ (8765 : Nat) ≠ 9999 :=
  ⟨rfl, rfl, by decide⟩

/-- C8 (counterexample): in the setup path, a failed lock acquisition on
the port cell and on the process cell is NOT surfaced as an error string:
setup still returns success and silently skips both writes, refuting
"surfaced ... with the sole exception of the shutdown path". -/
theorem setup_lock_failure_silent :
    setup (.ok ()) (.ok 1 8765) false false initialState =
        .ok initialState ∧
      isErr (setup (.ok ()) (.ok 1 8765) false false initialState) =
        false :=
  ⟨rfl, rfl⟩

/-- C8 (amended): a failed lock acquisition is surfaced as an error
string in `get_backend_port` (the command path), while BOTH the setup
writes and the shutdown handler silently skip their effect on a failed
(best-effort) lock attempt, without surfacing an error. -/
theorem lock_failure_handling (e : String) (st : AppState) :
    get_backend_port (.error e) st =
        .error ("Failed to lock backend port: " ++ e) ∧
      (∀ spawn, setup (.ok ()) spawn false false st = .ok st) ∧
      (∀ a b : Bool, (a && b) = false →
        on_window_destroyed a b st = (st, [])) := by
  refine ⟨rfl, ?_, ?_⟩
  · intro spawn; cases spawn <;> rfl
  · intro a b hab
    cases a <;> cases b <;> simp_all [on_window_destroyed]

/-- Witness for C8's amended theorem: shutdown with a failed lock skips
cleanup without error. -/
theorem lock_failure_handling_witness :
    ((true && false) = false) ∧
      on_window_destroyed true false initialState = (initialState, []) :=
  ⟨rfl, (lock_failure_handling "poisoned" initialState).2.2 true false rfl⟩

/-- C1: after a successful spawn (locks acquired), the process slot holds
exactly the one spawned handle; it keeps holding it across any events
that are not the window-destroyed signal; handling the first destroyed
signal takes the handle (slot becomes empty) and sends exactly one kill;
a second delivery of the signal, whatever its lock outcomes, performs no
kill. -/
theorem single_kill (child reportedPort : Nat) (st' : AppState)
    (h : setup (.ok ()) (.ok child reportedPort) true true initialState =
      .ok st') :
    st'.sidecarProcess = some child ∧
      (∀ (fs : String → Bool) (ks : List Nat) (evs : List Event),
        (∀ e ∈ evs, e.isDestroy = false) →
        (run ⟨st', fs, ks⟩ evs).app.sidecarProcess = some child) ∧
      (on_window_destroyed true true st').2 = [child] ∧
      ((on_window_destroyed true true st').1).sidecarProcess = none ∧
      (∀ a b : Bool,
        (on_window_destroyed a b
          (on_window_destroyed true true st').1).2 = []) := by
  have hst : st' = ⟨some fixedPort, some child⟩ := (Except.ok.inj h).symm
  subst hst
  refine ⟨rfl, ?_, rfl, rfl, ?_⟩
  · intro fs ks evs hevs
    rw [run_app_of_no_destroy evs _ hevs]
  · intro a b
    cases a <;> cases b <;> rfl

/-- Witness for C1 with handle 7: setup stores it and the first destroyed
signal kills exactly it. -/
theorem single_kill_witness :
    (setup (.ok ()) (.ok 7 9000) true true initialState =
        .ok { backendPort := some 8765, sidecarProcess := some 7 }) ∧
      (on_window_destroyed true true
        { backendPort := some 8765, sidecarProcess := some 7 }).2 = [7] :=
  ⟨rfl, (single_kill 7 9000 _ rfl).2.2.1⟩

/-- C9: the port cell is written at most once per run: whichever branch
setup takes (spawn success or failure), starting from the initial unset
state it leaves the cell at the fixed port exactly when the lock was
acquired (otherwise unset), and no later event — reads, vault resets, or
shutdown signals — ever changes the cell again. -/
theorem port_write_once (spawn : SpawnResult) (portLockOk procLockOk : Bool)
    (st' : AppState)
    (h : setup (.ok ()) spawn portLockOk procLockOk initialState = .ok st') :
    st'.backendPort = (if portLockOk then some fixedPort else none) ∧
      ∀ (fs : String → Bool) (ks : List Nat) (evs : List Event),
        (run ⟨st', fs, ks⟩ evs).app.backendPort = st'.backendPort := by
  have hp : st'.backendPort = (if portLockOk then some fixedPort else none) := by
    cases spawn with
    | ok child rp =>
        rw [← Except.ok.inj h, writeProc_backendPort]
        cases portLockOk <;> rfl
    | err e =>
        rw [← Except.ok.inj h]
        cases portLockOk <;> rfl
  exact ⟨hp, fun fs ks evs => run_backendPort evs ⟨st', fs, ks⟩⟩

/-- Witness for C9: spawn-success run with locks held sets the port to
8765 and a destroyed event leaves it unchanged. -/
theorem port_write_once_witness :
    (setup (.ok ()) (.ok 7 9000) true true initialState =
        .ok { backendPort := some 8765, sidecarProcess := some 7 }) ∧
      (run ⟨{ backendPort := some 8765, sidecarProcess := some 7 },
          fsEmpty, []⟩ [.destroyed true true]).app.backendPort =
        some 8765 :=
  ⟨rfl, by
    have := (port_write_once (.ok 7 9000) true true
      { backendPort := some 8765, sidecarProcess := some 7 } rfl).2
      fsEmpty [] [.destroyed true true]
    simpa using this⟩

/-- C6: `reset_credentials_vault` is idempotent: on a filesystem where
the vault path does not exist it succeeds and returns the filesystem
unchanged; and two calls in a row (the first one's deletion succeeding
when the file exists) both return success. -/
theorem reset_vault_idempotent (dir : String) (rm2 : Except String Unit)
    (fs : String → Bool) :
    (fs (joinPath dir vaultFileName) = false →
      reset_credentials_vault (.ok dir) rm2 fs = (.ok (), fs)) ∧
      (reset_credentials_vault (.ok dir) (.ok ()) fs).1 = .ok () ∧
      (reset_credentials_vault (.ok dir) rm2
        (reset_credentials_vault (.ok dir) (.ok ()) fs).2).1 = .ok () := by
  refine ⟨fun h => ?_, ?_, ?_⟩
  · simp [reset_credentials_vault, h]
  · cases hf : fs (joinPath dir vaultFileName) <;>
      simp [reset_credentials_vault, hf]
  · cases hf : fs (joinPath dir vaultFileName) <;>
      simp [reset_credentials_vault, hf]

/-- Witness for C6 on the empty filesystem. -/
theorem reset_vault_idempotent_witness :
    fsEmpty (joinPath "appdata" vaultFileName) = false ∧
      reset_credentials_vault (.ok "appdata") (.ok ()) fsEmpty =
        (.ok (), fsEmpty) :=
  ⟨rfl, (reset_vault_idempotent "appdata" (.ok ()) fsEmpty).1 rfl⟩

/-- C7: `reset_credentials_vault` fails with the path-resolution error
string when the app-data directory cannot be resolved, and with the
deletion error string when the vault file exists and the filesystem
denies the deletion; it fails if and only if one of those two happens;
and on any failure the filesystem (vault file included) is untouched. -/
theorem reset_vault_errors (appDataDir : Except String String)
    (removeRes : Except String Unit) (fs : String → Bool) :
    (∀ e, appDataDir = .error e →
      reset_credentials_vault appDataDir removeRes fs =
        (.error ("Failed to locate app data directory: " ++ e), fs)) ∧
      (∀ dir e, appDataDir = .ok dir →
        fs (joinPath dir vaultFileName) = true → removeRes = .error e →
        reset_credentials_vault appDataDir removeRes fs =
          (.error ("Failed to delete credentials vault: " ++ e), fs)) ∧
      (isErr (reset_credentials_vault appDataDir removeRes fs).1 = true ↔
        (isErr appDataDir = true ∨
          ∃ dir, appDataDir = .ok dir ∧
            fs (joinPath dir vaultFileName) = true ∧
            isErr removeRes = true)) ∧
      (isErr (reset_credentials_vault appDataDir removeRes fs).1 = true →
        (reset_credentials_vault appDataDir removeRes fs).2 = fs) := by
  cases appDataDir with
  | error e =>
      refine ⟨fun e' he => ?_, fun dir e' hdir => by simp at hdir, ?_, fun _ => rfl⟩
      · cases he; rfl
      · simp [reset_credentials_vault, isErr]
  | ok dir =>
      cases hf : fs (joinPath dir vaultFileName) with
      | false =>
          refine ⟨fun e he => by simp at he, fun dir' e hdir hfs => ?_, ?_, ?_⟩
          · cases hdir; rw [hf] at hfs; exact absurd hfs (by simp)
          · simp [reset_credentials_vault, hf, isErr]
          · simp [reset_credentials_vault, hf, isErr]
      | true =>
          cases removeRes with
          | ok u =>
              refine ⟨fun e he => by simp at he,
                fun dir' e hdir hfs hrm => by simp at hrm, ?_, ?_⟩
              · simp [reset_credentials_vault, hf, isErr]
              · simp [reset_credentials_vault, hf, isErr]
          | error e =>
              refine ⟨fun e' he => by simp at he,
                fun dir' e' hdir hfs hrm => ?_, ?_, ?_⟩
              · cases hdir; cases hrm
                simp [reset_credentials_vault, hf]
              · simp [reset_credentials_vault, hf, isErr]
              · intro hx
                simp [reset_credentials_vault, hf]

/-- Witness for C7: deletion denied on an existing vault file surfaces
the deletion error string and leaves the filesystem untouched. -/
theorem reset_vault_errors_witness :
    ((Except.ok "appdata" : Except String String) = .ok "appdata") ∧
      fs0 (joinPath "appdata" vaultFileName) = true ∧
      ((Except.error "denied" : Except String Unit) = .error "denied") ∧
      reset_credentials_vault (.ok "appdata") (.error "denied") fs0 =
        (.error ("Failed to delete credentials vault: " ++ "denied"), fs0) :=
  ⟨rfl, rfl, rfl,
    (reset_vault_errors (.ok "appdata") (.error "denied") fs0).2.1
      "appdata" "denied" rfl rfl rfl⟩

/-- C10 (frame): `reset_credentials_vault` touches at most the single
resolved vault path: for every filesystem, every other path's presence
is unchanged by the call, whether it succeeds or fails. -/
theorem reset_vault_frame (appDataDir : Except String String)
    (removeRes : Except String Unit) (fs : String → Bool) (p : String)
    (h : resolvedVaultPath appDataDir ≠ some p) :
    (reset_credentials_vault appDataDir removeRes fs).2 p = fs p := by
  cases appDataDir with
  | error e => rfl
  | ok dir =>
      have hp : p ≠ joinPath dir vaultFileName := by
        intro he; exact h (by rw [he]; rfl)
      cases hf : fs (joinPath dir vaultFileName) with
      | false => simp [reset_credentials_vault, hf]
      | true =>
          cases removeRes with
          | ok u => simp [reset_credentials_vault, hf, hp]
          | error e => simp [reset_credentials_vault, hf]

/-- Witness for C10: a path other than the resolved vault path keeps its
presence across a successful deletion. -/
theorem reset_vault_frame_witness :
    resolvedVaultPath (.ok "appdata") ≠ some "other" ∧
      (reset_credentials_vault (.ok "appdata") (.ok ()) fs0).2 "other" =
        fs0 "other" :=
  ⟨by decide,
    reset_vault_frame (.ok "appdata") (.ok ()) fs0 "other" (by decide)⟩

end IncidentWorkbench
